import Mathlib

/-!
Verification of the agent-orchestration core of the `week` repository.

The definitions below are a shallow embedding of the Python sources:
* `src/models/state.py`        — enums and data records,
* `src/workflow/router.py`     — the `RoutingEngine`,
* `src/agents/base_agent.py`   — `BaseAgent.call_llm` (resilient invocation),
* `src/memory/memory_store.py` — the SQLite-backed `MemoryStore`.

Conventions: Python floats that only enter comparisons are modelled as `ℚ`;
`datetime` values are modelled by their ISO-format strings (SQLite stores and
compares them as TEXT); fallible Python code is modelled with `Except`/`Option`.
-/

namespace Week

/-! ### State model (`src/models/state.py`) -/

/-- `AgentRole` enum: the only members are RECEPTIONIST, PROBLEM_ANALYST,
SOLUTION_EXPERT. -/
inductive AgentRole where
  | RECEPTIONIST
  | PROBLEM_ANALYST
  | SOLUTION_EXPERT
deriving DecidableEq, Repr

/-- `.value` of an `AgentRole` member. -/
def AgentRole.value : AgentRole → String
  | .RECEPTIONIST => "receptionist"
  | .PROBLEM_ANALYST => "problem_analyst"
  | .SOLUTION_EXPERT => "solution_expert"

/-- Python attribute lookup `AgentRole.<name>` on the enum class: `some` for the
three declared members, `none` (an `AttributeError`) for anything else. -/
def AgentRole.member : String → Option AgentRole
  | "RECEPTIONIST" => some .RECEPTIONIST
  | "PROBLEM_ANALYST" => some .PROBLEM_ANALYST
  | "SOLUTION_EXPERT" => some .SOLUTION_EXPERT
  | _ => none

/-- `AgentRole(v)` — construct the enum member from its string value. -/
def AgentRole.ofValue : String → Option AgentRole
  | "receptionist" => some .RECEPTIONIST
  | "problem_analyst" => some .PROBLEM_ANALYST
  | "solution_expert" => some .SOLUTION_EXPERT
  | _ => none

/-- `MessageType` enum. -/
inductive MessageType where
  | USER_QUERY
  | AGENT_RESPONSE
  | HANDOFF
  | SYSTEM_NOTIFICATION
deriving DecidableEq, Repr

def MessageType.value : MessageType → String
  | .USER_QUERY => "user_query"
  | .AGENT_RESPONSE => "agent_response"
  | .HANDOFF => "handoff"
  | .SYSTEM_NOTIFICATION => "system_notification"

def MessageType.ofValue : String → Option MessageType
  | "user_query" => some .USER_QUERY
  | "agent_response" => some .AGENT_RESPONSE
  | "handoff" => some .HANDOFF
  | "system_notification" => some .SYSTEM_NOTIFICATION
  | _ => none

/-- A conversation `Message`. The routing engine reads only `sender` and
`content`; the remaining fields (`id`, `type`, `timestamp`, `metadata`) never
influence any function verified here and are omitted from the embedding. -/
structure Message where
  sender : String
  content : String
deriving DecidableEq, Repr

/-- `AnalysisResult`, restricted to the fields the routing engine reads
(`severity`, `category`, `confidence_score`, `keywords`). -/
structure AnalysisResult where
  category : String
  severity : String
  keywords : List String
  confidence_score : ℚ
deriving DecidableEq, Repr

/-- `AgentState`, restricted to the fields `RoutingEngine` reads.
(`customer_query`, `solution`, `handoff_reason` flow into the factors
dictionary but are never read by `_apply_routing_rules`; `solution` and
`handoff_reason` only appear inside the unused `session_context`.) -/
structure AgentState where
  analysis_result : Option AnalysisResult
  conversation_history : List Message
deriving DecidableEq, Repr

/-! ### Routing engine (`src/workflow/router.py`) -/

/-- `RoutingDecision` enum. -/
inductive RoutingDecision where
  | CONTINUE_CURRENT
  | HANDOFF_TO_ANALYST
  | HANDOFF_TO_EXPERT
  | ESCALATE
  | END_CONVERSATION
deriving DecidableEq, Repr

/-- Decidable substring test: does `needle` occur as a contiguous infix of
`hay`?  Models Python's `needle in hay` on strings. -/
def charsContain (needle : List Char) : List Char → Bool
  | [] => needle.isEmpty
  | c :: rest => needle.isPrefixOf (c :: rest) || charsContain needle rest

/-- `needle in hay` for Lean `String`s. -/
def strContains (hay needle : String) : Bool :=
  charsContain needle.data hay.data

/-- `s.lower()`, character by character (adequate for the ASCII contents and
keyword lists involved here). -/
def lowerStr (s : String) : List Char :=
  s.data.map Char.toLower

/-- Escalation keyword list of `_analyze_conversation_patterns`. -/
def escalation_keywords : List String :=
  ["urgent", "emergency", "critical", "escalate", "manager", "supervisor"]

/-- Resolution keyword list of `_analyze_conversation_patterns`. -/
def resolution_keywords : List String :=
  ["resolved", "fixed", "solved", "working", "thank you", "thanks"]

/-- `any(keyword in msg.content.lower() for keyword in kws)`. -/
def msgHasKeyword (kws : List String) (m : Message) : Bool :=
  kws.any (fun k => charsContain k.data (lowerStr m.content))

/-- Escalation detection: the source scans the **entire** history
(`for msg in history`). -/
def escalationDetected (history : List Message) : Bool :=
  history.any (msgHasKeyword escalation_keywords)

/-- `history[-3:]` — the last (up to) three messages. -/
def lastThree (history : List Message) : List Message :=
  history.drop (history.length - 3)

/-- Resolution detection: the source scans only `history[-3:]`. -/
def resolutionDetected (history : List Message) : Bool :=
  (lastThree history).any (msgHasKeyword resolution_keywords)

/-- The two pattern flags `_apply_routing_rules` reads.  For an empty history
the source returns a dict without these keys and the subsequent `.get` yields
the falsy `None`; since both detectors are also `False` on an empty history,
the uniform definition below is exact. -/
structure ConvPatterns where
  escalation_detected : Bool
  resolution_detected : Bool
deriving DecidableEq, Repr

/-- `_analyze_conversation_patterns`, restricted to the two flags consumed by
`_apply_routing_rules` (the message counts and `last_agent` are never read). -/
def analyzeConversationPatterns (history : List Message) : ConvPatterns :=
  ⟨escalationDetected history, resolutionDetected history⟩

/-- The factors dictionary entries read by `_apply_routing_rules`:
`severity` / `category` / `confidence` are present exactly when
`state.analysis_result` is present. -/
structure Factors where
  severity : Option String
  category : Option String
  confidence : Option ℚ
  conversation_patterns : ConvPatterns
deriving DecidableEq, Repr

/-- `_analyze_routing_factors`, restricted to the keys that
`_apply_routing_rules` reads. -/
def analyzeRoutingFactors (state : AgentState) : Factors where
  severity := state.analysis_result.map (·.severity)
  category := state.analysis_result.map (·.category)
  confidence := state.analysis_result.map (·.confidence_score)
  conversation_patterns := analyzeConversationPatterns state.conversation_history

/-- The `severity_based` rule table, as written in `_initialize_routing_rules`
(target, reason). -/
def severityTable : String → Option (AgentRole × String)
  | "critical" => some (.SOLUTION_EXPERT, "Critical severity requires expert intervention")
  | "high" => some (.SOLUTION_EXPERT, "High severity needs expert attention")
  | "medium" => some (.PROBLEM_ANALYST, "Medium severity needs analysis")
  | "low" => some (.PROBLEM_ANALYST, "Low severity can be handled by analyst")
  | _ => none

/-- The `category_based` rule table. -/
def categoryTable : String → Option (AgentRole × String)
  | "technical" => some (.SOLUTION_EXPERT, "Technical issues require expert solutions")
  | "billing" => some (.PROBLEM_ANALYST, "Billing issues need investigation")
  | "account" => some (.PROBLEM_ANALYST, "Account issues need analysis")
  | "general" => some (.RECEPTIONIST, "General inquiries can be handled by receptionist")
  | _ => none

/-- The full routing decision tuple `(decision, target, reason)`. -/
abbrev Decision := RoutingDecision × AgentRole × String

/-- The confidence-based tail of `_apply_routing_rules`:
`confidence = factors.get("confidence", 0.8); if confidence < 0.6 → expert`.
(0.8 and 0.6 are written `mkRat 4 5` and `mkRat 3 5`.) -/
def confidenceStep (f : Factors) (current : AgentRole) : Decision :=
  if f.confidence.getD (mkRat 4 5) < mkRat 3 5 then
    (.HANDOFF_TO_EXPERT, .SOLUTION_EXPERT, "Low confidence requires expert review")
  else
    (.CONTINUE_CURRENT, current, "Continue with current processing")

/-- The category-based step of `_apply_routing_rules`
(`category = factors.get("category", "general")`); on no decision it falls
through to `confidenceStep`.  A target equal to the current agent, or the
RECEPTIONIST target, never returns. -/
def categoryStep (f : Factors) (current : AgentRole) : Decision :=
  match categoryTable (f.category.getD "general") with
  | some (t, r) =>
    if t ≠ current then
      if t = .SOLUTION_EXPERT then (.HANDOFF_TO_EXPERT, t, r)
      else if t = .PROBLEM_ANALYST then (.HANDOFF_TO_ANALYST, t, r)
      else confidenceStep f current
    else confidenceStep f current
  | none => confidenceStep f current

/-- The severity-based step of `_apply_routing_rules`
(`severity = factors.get("severity", "medium")`): any severity present in the
table returns immediately with decision `HANDOFF_TO_EXPERT`; only a severity
outside the table falls through to `categoryStep`. -/
def severityStep (f : Factors) (current : AgentRole) : Decision :=
  match severityTable (f.severity.getD "medium") with
  | some (t, r) => (.HANDOFF_TO_EXPERT, t, r)
  | none => categoryStep f current

/-- The rules evaluated after the escalation check (resolution check onward). -/
def afterEscalationStep (f : Factors) (current : AgentRole) : Decision :=
  if f.conversation_patterns.resolution_detected then
    (.END_CONVERSATION, current, "Resolution indicators detected")
  else severityStep f current

/-- `RoutingEngine._apply_routing_rules`. -/
def applyRoutingRules (f : Factors) (current : AgentRole) : Decision :=
  if f.conversation_patterns.escalation_detected then
    (.ESCALATE, .SOLUTION_EXPERT, "Escalation keywords detected")
  else afterEscalationStep f current

/-- Routing decision for a state: factor analysis followed by rule
application, i.e. the pure value `make_routing_decision` computes before it
attempts to record it. -/
def routeState (state : AgentState) (current : AgentRole) : Decision :=
  applyRoutingRules (analyzeRoutingFactors state) current

/-! #### The `RoutingEngine` failure modes (claim C4) -/

/-- Python runtime errors relevant to the routing engine. -/
inductive PyErr where
  | attributeError (msg : String)
deriving DecidableEq, Repr

/-- Evaluate attribute reference `AgentRole.<name>` as an expression:
an unknown member raises `AttributeError`. -/
def enumAttr (name : String) : Except PyErr AgentRole :=
  match AgentRole.member name with
  | some r => .ok r
  | none => .error (.attributeError ("type object AgentRole has no attribute " ++ name))

/-- The routing-rules table value `_initialize_routing_rules` would build:
every `(target, reason)` entry of the three sub-dicts. -/
structure RoutingRules where
  severity_critical : AgentRole × String
  severity_high : AgentRole × String
  severity_medium : AgentRole × String
  severity_low : AgentRole × String
  category_technical : AgentRole × String
  category_billing : AgentRole × String
  category_account : AgentRole × String
  category_general : AgentRole × String
  confidence_low : AgentRole × String
  confidence_medium : AgentRole × String
  confidence_high : AgentRole × String
deriving DecidableEq, Repr

/-- `RoutingEngine._initialize_routing_rules`: evaluates the dict literal,
resolving each `AgentRole.<member>` attribute reference in source order.  The
`confidence_based → high` entry references `AgentRole.AGENT_ROLE`, which is not
a member of the enum. -/
def init_routing_rules : Except PyErr RoutingRules := do
  let se1 ← enumAttr "SOLUTION_EXPERT"
  let se2 ← enumAttr "SOLUTION_EXPERT"
  let pa1 ← enumAttr "PROBLEM_ANALYST"
  let pa2 ← enumAttr "PROBLEM_ANALYST"
  let se3 ← enumAttr "SOLUTION_EXPERT"
  let pa3 ← enumAttr "PROBLEM_ANALYST"
  let pa4 ← enumAttr "PROBLEM_ANALYST"
  let rc1 ← enumAttr "RECEPTIONIST"
  let se4 ← enumAttr "SOLUTION_EXPERT"
  let pa5 ← enumAttr "PROBLEM_ANALYST"
  let ar ← enumAttr "AGENT_ROLE"
  return {
    severity_critical := (se1, "Critical severity requires expert intervention")
    severity_high := (se2, "High severity needs expert attention")
    severity_medium := (pa1, "Medium severity needs analysis")
    severity_low := (pa2, "Low severity can be handled by analyst")
    category_technical := (se3, "Technical issues require expert solutions")
    category_billing := (pa3, "Billing issues need investigation")
    category_account := (pa4, "Account issues need analysis")
    category_general := (rc1, "General inquiries can be handled by receptionist")
    confidence_low := (se4, "Low confidence requires expert review")
    confidence_medium := (pa5, "Medium confidence needs analysis")
    confidence_high := (ar, "High confidence allows current agent to continue")
  }

/-- `RoutingEngine.__init__` evaluates `_initialize_routing_rules()`. -/
def routingEngineInit : Except PyErr (RoutingRules × List String) :=
  init_routing_rules.map (fun rules => (rules, []))

/-- The attribute access `decision.value` in `make_routing_decision`, where
`decision` is the tuple returned by `_apply_routing_rules`: Python tuples have
no attribute `value`, so this raises `AttributeError` unconditionally. -/
def decisionTupleValue (_ : Decision) : Except PyErr String :=
  .error (.attributeError "tuple object has no attribute value")

/-- `RoutingEngine.make_routing_decision`: computes the decision tuple, then
records it into `decision_history` via `decision.value`, which raises before
the decision can be returned. -/
def makeRoutingDecision (state : AgentState) (current : AgentRole) :
    Except PyErr Decision :=
  let decision := routeState state current
  match decisionTupleValue decision with
  | .error e => .error e
  | .ok _ => .ok decision

/-! #### Claim statements and inputs for the routing engine -/

/-- Severity field of the state's analysis result, if any. -/
def sevOf (st : AgentState) : Option String :=
  st.analysis_result.map (·.severity)

/-- Escalation keyword present within the last three messages only. -/
def escalationInLastThree (history : List Message) : Bool :=
  (lastThree history).any (msgHasKeyword escalation_keywords)

/-- Whether the category-based rule (spec rule 4) fires: the category maps to a
target different from the current agent that is the expert or the analyst. -/
def rule4Fires (f : Factors) (cur : AgentRole) : Bool :=
  match categoryTable (f.category.getD "general") with
  | some (t, _) =>
    if t = cur then false
    else if t = .SOLUTION_EXPERT then true
    else if t = .PROBLEM_ANALYST then true
    else false
  | none => false

/-- Claim C1 as stated: with no escalation/resolution keywords and
`confidence < 0.6`, unless rule 3 (severity high/critical) or rule 4 fired,
routing returns the rule-5 low-confidence expert handoff. -/
def claimC1 : Prop :=
  ∀ (st : AgentState) (cur : AgentRole),
    escalationDetected st.conversation_history = false →
    resolutionDetected st.conversation_history = false →
    (analyzeRoutingFactors st).confidence.getD (mkRat 4 5) < mkRat 3 5 →
    sevOf st ≠ some "high" →
    sevOf st ≠ some "critical" →
    rule4Fires (analyzeRoutingFactors st) cur = false →
    routeState st cur =
      (.HANDOFF_TO_EXPERT, .SOLUTION_EXPERT, "Low confidence requires expert review")

/-- Claim C2 as stated: rule 3 decides exactly for severities high/critical;
any other severity (or absent analysis) falls through to the category- and
confidence-based rules. -/
def claimC2 : Prop :=
  ∀ (st : AgentState) (cur : AgentRole),
    escalationDetected st.conversation_history = false →
    resolutionDetected st.conversation_history = false →
    ((sevOf st = some "high" →
        routeState st cur =
          (.HANDOFF_TO_EXPERT, .SOLUTION_EXPERT, "High severity needs expert attention")) ∧
     (sevOf st = some "critical" →
        routeState st cur =
          (.HANDOFF_TO_EXPERT, .SOLUTION_EXPERT, "Critical severity requires expert intervention")) ∧
     (sevOf st ≠ some "high" → sevOf st ≠ some "critical" →
        routeState st cur = categoryStep (analyzeRoutingFactors st) cur))

/-- Claim C3 as stated: an escalation keyword in the last three messages forces
`ESCALATE`; a keyword occurring only earlier than the last three does not
trigger rule 1 (evaluation proceeds with the remaining rules). -/
def claimC3 : Prop :=
  ∀ (st : AgentState) (cur : AgentRole),
    (escalationInLastThree st.conversation_history = true →
       routeState st cur = (.ESCALATE, .SOLUTION_EXPERT, "Escalation keywords detected")) ∧
    (escalationDetected st.conversation_history = true →
     escalationInLastThree st.conversation_history = false →
       routeState st cur = afterEscalationStep (analyzeRoutingFactors st) cur)

/-- C1 counterexample input: severity "medium", category "billing", confidence
0.5, current agent the analyst, one keyword-free message. -/
def stC1 : AgentState :=
  { analysis_result := some { category := "billing", severity := "medium",
                              keywords := [], confidence_score := mkRat 1 2 }
    conversation_history := [{ sender := "user", content := "my bill looks wrong" }] }

/-- C2 counterexample input: severity "low", category "billing", confidence
0.9, current agent the analyst, one keyword-free message. -/
def stC2 : AgentState :=
  { analysis_result := some { category := "billing", severity := "low",
                              keywords := [], confidence_score := mkRat 9 10 }
    conversation_history := [{ sender := "user", content := "my bill looks wrong" }] }

/-- C3 counterexample input: the escalation keyword "urgent" appears only in
the first of four messages, so it is outside the last-three window; analysis
severity "medium". -/
def stC3 : AgentState :=
  { analysis_result := some { category := "general", severity := "medium",
                              keywords := [], confidence_score := mkRat 9 10 }
    conversation_history :=
      [{ sender := "user", content := "this is urgent please help" },
       { sender := "receptionist", content := "hello, how can I help" },
       { sender := "user", content := "my login page shows an odd message" },
       { sender := "receptionist", content := "let me look into that" }] }

/-- C1 amended-claim witness input: nonstandard severity, category mapping to
the current agent, confidence 0.5. -/
def stC1w : AgentState :=
  { analysis_result := some { category := "general", severity := "unknown",
                              keywords := [], confidence_score := mkRat 1 2 }
    conversation_history := [{ sender := "user", content := "hello there" }] }

/-! ### Theorems: routing claims C1-C4 -/

/-- C1, counterexample: at `stC1` every hypothesis of the claim holds
(no keywords, confidence 0.5 < 0.6, severity "medium" is neither high nor
critical, the category rule does not fire), yet the code returns the
severity-rule decision `(HANDOFF_TO_EXPERT, PROBLEM_ANALYST, "Medium severity
needs analysis")`, not the rule-5 tuple — the severity rule fires for all four
standard severities, not only high/critical. -/
theorem routing_low_confidence_counterexample : ¬ claimC1 := by
  intro h
  exact absurd
    (h stC1 .PROBLEM_ANALYST (by decide) (by decide) (by decide) (by decide)
      (by decide) (by decide))
    (by decide)

/-- C1, amended: with no escalation/resolution keywords, rule 5 (handoff to
the expert with reason "Low confidence requires expert review") fires for
`confidence < 0.6` only when the severity (defaulted to "medium") lies outside
the severity table — the severity rule fires first for ALL of
low/medium/high/critical, not only high/critical — and the category rule did
not fire. -/
theorem routing_low_confidence_amended (st : AgentState) (cur : AgentRole)
    (hesc : escalationDetected st.conversation_history = false)
    (hres : resolutionDetected st.conversation_history = false)
    (hsev : severityTable ((analyzeRoutingFactors st).severity.getD "medium") = none)
    (hcat : rule4Fires (analyzeRoutingFactors st) cur = false)
    (hconf : (analyzeRoutingFactors st).confidence.getD (mkRat 4 5) < mkRat 3 5) :
    routeState st cur =
      (.HANDOFF_TO_EXPERT, .SOLUTION_EXPERT, "Low confidence requires expert review") := by
  have hroute : routeState st cur = categoryStep (analyzeRoutingFactors st) cur := by
    unfold routeState applyRoutingRules afterEscalationStep severityStep
    rw [show (analyzeRoutingFactors st).conversation_patterns
          = ⟨escalationDetected st.conversation_history,
             resolutionDetected st.conversation_history⟩ from rfl]
    rw [hesc, hres, hsev]
    rfl
  rw [hroute]
  unfold categoryStep
  unfold rule4Fires at hcat
  split at hcat
  · rename_i t r heq
    by_cases hne : t = cur
    · simp [hne, confidenceStep, hconf]
    · rw [if_neg hne] at hcat
      by_cases h1 : t = AgentRole.SOLUTION_EXPERT
      · rw [if_pos h1] at hcat; exact Bool.noConfusion hcat
      · rw [if_neg h1] at hcat
        by_cases h2 : t = AgentRole.PROBLEM_ANALYST
        · rw [if_pos h2] at hcat; exact Bool.noConfusion hcat
        · simp [hne, h1, h2, confidenceStep, hconf]
  · rename_i heq
    simp [confidenceStep, hconf]

/-- Witness for `routing_low_confidence_amended` at `stC1w`. -/
theorem routing_low_confidence_amended_witness :
    routeState stC1w .RECEPTIONIST =
      (.HANDOFF_TO_EXPERT, .SOLUTION_EXPERT, "Low confidence requires expert review") :=
  routing_low_confidence_amended stC1w .RECEPTIONIST (by decide) (by decide)
    (by decide) (by decide) (by decide)

/-- C2, counterexample: at `stC2` (severity "low", no keywords) the claim
predicts fall-through to the category/confidence rules, which would yield
`CONTINUE_CURRENT` (category "billing" maps to the current analyst, confidence
0.9 ≥ 0.6); the code instead returns the severity-rule handoff. -/
theorem routing_severity_counterexample : ¬ claimC2 := by
  intro h
  exact absurd
    ((h stC2 .PROBLEM_ANALYST (by decide) (by decide)).2.2 (by decide) (by decide))
    (by decide)

/-- C2, amended: with no escalation/resolution keywords the severity rule
fires for EVERY severity in the table — expert-tier with the severity named in
the reason for "high"/"critical", but also an (incoherently labelled)
`HANDOFF_TO_EXPERT` targeting the analyst for "medium"/"low" and for an absent
analysis (severity defaults to "medium"); only a severity outside the table
falls through to the category/confidence rules. -/
theorem routing_severity_amended (st : AgentState) (cur : AgentRole)
    (hesc : escalationDetected st.conversation_history = false)
    (hres : resolutionDetected st.conversation_history = false) :
    ((sevOf st = some "high" →
        routeState st cur =
          (.HANDOFF_TO_EXPERT, .SOLUTION_EXPERT, "High severity needs expert attention")) ∧
     (sevOf st = some "critical" →
        routeState st cur =
          (.HANDOFF_TO_EXPERT, .SOLUTION_EXPERT, "Critical severity requires expert intervention")) ∧
     (sevOf st = some "medium" ∨ sevOf st = none →
        routeState st cur =
          (.HANDOFF_TO_EXPERT, .PROBLEM_ANALYST, "Medium severity needs analysis")) ∧
     (sevOf st = some "low" →
        routeState st cur =
          (.HANDOFF_TO_EXPERT, .PROBLEM_ANALYST, "Low severity can be handled by analyst")) ∧
     (∀ s, sevOf st = some s → severityTable s = none →
        routeState st cur = categoryStep (analyzeRoutingFactors st) cur)) := by
  have hfac : (analyzeRoutingFactors st).severity = sevOf st := rfl
  have hroute : routeState st cur = severityStep (analyzeRoutingFactors st) cur := by
    unfold routeState applyRoutingRules afterEscalationStep
    rw [show (analyzeRoutingFactors st).conversation_patterns
          = ⟨escalationDetected st.conversation_history,
             resolutionDetected st.conversation_history⟩ from rfl]
    rw [hesc, hres]
    simp
  refine ⟨?_, ?_, ?_, ?_, ?_⟩
  · intro hs
    rw [hroute]; unfold severityStep; rw [hfac, hs]; rfl
  · intro hs
    rw [hroute]; unfold severityStep; rw [hfac, hs]; rfl
  · intro hs
    rw [hroute]; unfold severityStep; rw [hfac]
    rcases hs with hs | hs <;> rw [hs] <;> rfl
  · intro hs
    rw [hroute]; unfold severityStep; rw [hfac, hs]; rfl
  · intro s hs hnone
    rw [hroute]; unfold severityStep; rw [hfac, hs]
    simp [hnone]

/-- Witness for `routing_severity_amended` at `stC2` (severity "low"). -/
theorem routing_severity_amended_witness :
    routeState stC2 .PROBLEM_ANALYST =
      (.HANDOFF_TO_EXPERT, .PROBLEM_ANALYST, "Low severity can be handled by analyst") :=
  (routing_severity_amended stC2 .PROBLEM_ANALYST (by decide) (by decide)).2.2.2.1
    (by decide)

/-- C3, counterexample: at `stC3` the keyword "urgent" occurs only in a message
older than the last three, yet the code still returns `ESCALATE` — the source
scans the entire history (`for msg in history`), not `history[-3:]`. -/
theorem routing_escalation_counterexample : ¬ claimC3 := by
  intro h
  exact absurd ((h stC3 .RECEPTIONIST).2 (by decide) (by decide)) (by decide)

/-- C3, amended: an escalation keyword ANYWHERE in the conversation history
(the last three messages included, but also any earlier message) makes the
routing engine return `ESCALATE` to the expert, regardless of severity,
category or confidence; only the resolution check is limited to the last three
messages. -/
theorem routing_escalation_amended (st : AgentState) (cur : AgentRole)
    (h : escalationDetected st.conversation_history = true) :
    routeState st cur = (.ESCALATE, .SOLUTION_EXPERT, "Escalation keywords detected") := by
  unfold routeState applyRoutingRules
  rw [show (analyzeRoutingFactors st).conversation_patterns
        = ⟨escalationDetected st.conversation_history,
           resolutionDetected st.conversation_history⟩ from rfl]
  rw [h]
  rfl

/-- Witness for `routing_escalation_amended` at `stC3`. -/
theorem routing_escalation_amended_witness :
    routeState stC3 .RECEPTIONIST = (.ESCALATE, .SOLUTION_EXPERT, "Escalation keywords detected") :=
  routing_escalation_amended stC3 .RECEPTIONIST (by decide)

/-- C4: the `RoutingEngine` can never return a routing decision.
Construction fails because the rule table references `AgentRole.AGENT_ROLE`,
which is not a member of the enum; and independently, every call to
`make_routing_decision` raises `AttributeError` while logging the decision,
because it reads `.value` off the decision tuple. -/
theorem routing_engine_always_raises :
    routingEngineInit =
      .error (.attributeError "type object AgentRole has no attribute AGENT_ROLE") ∧
    ∀ (st : AgentState) (cur : AgentRole),
      makeRoutingDecision st cur =
        .error (.attributeError "tuple object has no attribute value") :=
  ⟨rfl, fun _ _ => rfl⟩

/-! ### Resilient invocation (`src/agents/base_agent.py`, `BaseAgent.call_llm`)

The external text-generation backend is modelled as a deterministic oracle
`Gen : model → prompt → call index → Except errorMessage content`; the call
index is threaded as a counter so a theorem about the result also counts and
orders every backend invocation.  Python exceptions are represented by their
`str(e)` message, which is all `call_llm` inspects. -/

deriving instance DecidableEq for Except

/-- Backend oracle: `gen model prompt n` is the outcome of the `n`-th
`ainvoke` performed in the process. -/
abbrev Gen := String → String → Nat → Except String String

/-- The mutable agent fields `call_llm` touches: `self.model_name` (which also
identifies `self.llm`, both are switched together) and
`self.fallback_models`. -/
structure Agent where
  model_name : String
  fallback_models : List String
deriving DecidableEq, Repr

/-- `BaseAgent._is_transient_error`: substring checks on `str(exc).lower()`. -/
def is_transient_error (msg : String) : Bool :=
  (["timeout", "timed out", "connection", "connect", "temporarily",
    "502", "503", "504"] : List String).any
    (fun k => charsContain k.data (lowerStr msg))

/-- `BaseAgent._is_model_forbidden_error`: substring checks on `str(exc)`. -/
def is_model_forbidden_error (msg : String) : Bool :=
  strContains msg "Error code: 403" || strContains msg "无权访问模型" ||
    strContains msg "doesn't have access" || strContains msg "not have access"

/-- The `RuntimeError` message raised on a forbidden error with no fallbacks
configured. -/
def forbiddenMsg (a : Agent) (e : String) : String :=
  "Model access forbidden. model=" ++ a.model_name ++
    ", fallbacks=[]. Original error: " ++ e

/-- The fallback loop of `call_llm`: try each fallback model once, in order,
with the same messages; on the first success switch `self.llm` /
`self.model_name` permanently; `last_error` starts as the original error and
is overwritten by each fallback failure, and is raised when the list is
exhausted. -/
def tryFallbacks (gen : Gen) (prompt : String) (a : Agent) :
    Nat → String → List String → Except String String × Agent × Nat
  | n, last, [] => (.error last, a, n)
  | n, _, m :: ms =>
    match gen m prompt n with
    | .ok content => (.ok content, { a with model_name := m }, n + 1)
    | .error e2 => tryFallbacks gen prompt a (n + 1) e2 ms

/-- The error handling of `call_llm` after the (possible) transient retry has
failed: fallback chain on a forbidden error with fallbacks configured, the
named `RuntimeError` on a forbidden error with none, re-raise otherwise.
`e` is the ORIGINAL exception (the retry's own failure was discarded). -/
def handleFailure (gen : Gen) (prompt : String) (a : Agent) (n : Nat)
    (e : String) : Except String String × Agent × Nat :=
  if is_model_forbidden_error e && !a.fallback_models.isEmpty then
    tryFallbacks gen prompt a n e a.fallback_models
  else if is_model_forbidden_error e then
    (.error (forbiddenMsg a e), a, n)
  else
    (.error e, a, n)

/-- `BaseAgent.call_llm`: one call on the active model; on a transient error,
exactly one retry with identical input; then the forbidden-error fallback
logic driven by the original error.  Returns (outcome, updated agent, next
call index). -/
def call_llm (gen : Gen) (prompt : String) (a : Agent) (n : Nat) :
    Except String String × Agent × Nat :=
  match gen a.model_name prompt n with
  | .ok content => (.ok content, a, n + 1)
  | .error e =>
    if is_transient_error e then
      match gen a.model_name prompt (n + 1) with
      | .ok content => (.ok content, a, n + 2)
      | .error _ => handleFailure gen prompt a (n + 2) e
    else
      handleFailure gen prompt a (n + 1) e

/-- `gen` fails pointwise: the `i`-th model of `ms` (queried at call index
`n + i`) fails with the `i`-th message of `es`. -/
def FailsWith (gen : Gen) (prompt : String) : Nat → List String → List String → Prop
  | _, [], [] => True
  | n, m :: ms, e :: es => gen m prompt n = .error e ∧ FailsWith gen prompt (n + 1) ms es
  | _, _, _ => False

/-- Claim C7 as stated: with a forbidden (non-transient) failure of the
configured model, a non-empty fallback list, and every fallback failing,
`call_llm` surfaces the ORIGINAL error. -/
def claimC7 : Prop :=
  ∀ (gen : Gen) (prompt : String) (a : Agent) (e : String) (es : List String),
    gen a.model_name prompt 0 = .error e →
    is_transient_error e = false →
    is_model_forbidden_error e = true →
    a.fallback_models ≠ [] →
    FailsWith gen prompt 1 a.fallback_models es →
    (call_llm gen prompt a 0).1 = .error e

/-- An agent with the default model and no fallbacks. -/
def agentA : Agent := { model_name := "gpt-3.5-turbo", fallback_models := [] }

/-- A stub backend that fails once with a timeout, then succeeds. -/
def genC5 : Gen := fun _ _ n => if n = 0 then .error "Request timeout" else .ok "hello"

/-- Agent with two configured fallbacks. -/
def agentB : Agent := { model_name := "m0", fallback_models := ["f1", "f2"] }

/-- A stub backend where the configured model is forbidden, the first fallback
fails, and the second fallback succeeds. -/
def genC6 : Gen := fun m _ _ =>
  if m = "m0" then .error "Error code: 403 model denied"
  else if m = "f1" then .error "fallback one failed"
  else .ok "ok2"

/-- A stub backend where the configured model is forbidden and both fallbacks
fail, with three distinct error messages. -/
def genC7 : Gen := fun m _ _ =>
  if m = "m0" then .error "Error code: 403 model denied"
  else if m = "f1" then .error "fallback one failed"
  else .error "fallback two failed"

/-! ### Theorems: resilient-invocation claims C5-C7 -/

/-- C5: when the first backend call fails with a transient error and the
retry succeeds, `call_llm` returns the retry's content with the agent
unchanged, and the final call index 2 shows exactly two backend invocations
were made — one initial call plus exactly one retry, both on the same model
with the same prompt. -/
theorem call_llm_transient_retry (gen : Gen) (prompt : String) (a : Agent)
    (e c : String)
    (he : is_transient_error e = true)
    (h0 : gen a.model_name prompt 0 = .error e)
    (h1 : gen a.model_name prompt 1 = .ok c) :
    call_llm gen prompt a 0 = (.ok c, a, 2) := by
  simp [call_llm, h0, he, h1]

/-- Witness for `call_llm_transient_retry` on the timeout-then-success stub. -/
theorem call_llm_transient_retry_witness :
    call_llm genC5 "describe the issue" agentA 0 = (.ok "hello", agentA, 2) :=
  call_llm_transient_retry genC5 "describe the issue" agentA "Request timeout"
    "hello" (by decide) (by decide) (by decide)

/-- C6: on a forbidden (non-transient) error with fallbacks `[m1, m2]` where
`m1` fails and `m2` succeeds, `call_llm` returns the success and permanently
switches the agent's active model to `m2`; and every later call on the
switched agent whose backend answers `m2` succeeds immediately — it consults
only the new active model `m2`, never the originally failing one. -/
theorem call_llm_fallback_switch (gen : Gen) (prompt : String) (a : Agent)
    (m1 m2 e e1 c : String)
    (hfb : a.fallback_models = [m1, m2])
    (h0 : gen a.model_name prompt 0 = .error e)
    (ht : is_transient_error e = false)
    (hf : is_model_forbidden_error e = true)
    (h1 : gen m1 prompt 1 = .error e1)
    (h2 : gen m2 prompt 2 = .ok c) :
    call_llm gen prompt a 0 = (.ok c, { a with model_name := m2 }, 3) ∧
    ∀ (gen2 : Gen) (p2 c2 : String) (n : Nat),
      gen2 m2 p2 n = .ok c2 →
      call_llm gen2 p2 { a with model_name := m2 } n
        = (.ok c2, { a with model_name := m2 }, n + 1) := by
  constructor
  · simp [call_llm, h0, ht, handleFailure, hf, hfb, tryFallbacks, h1, h2]
  · intro gen2 p2 c2 n hok
    simp [call_llm, hok]

/-- Witness for `call_llm_fallback_switch` on the forbidden-then-fallback
stub. -/
theorem call_llm_fallback_switch_witness :
    call_llm genC6 "describe the issue" agentB 0
      = (.ok "ok2", { agentB with model_name := "f2" }, 3) :=
  (call_llm_fallback_switch genC6 "describe the issue" agentB "f1" "f2"
    "Error code: 403 model denied" "fallback one failed" "ok2"
    (by decide) (by decide) (by decide) (by decide) (by decide) (by decide)).1

/-- C7, counterexample: with the configured model forbidden and both fallbacks
failing, `call_llm` surfaces the LAST fallback's error ("fallback two
failed"), not the original "Error code: 403 model denied" — `last_error` is
overwritten inside the fallback loop before being raised. -/
theorem call_llm_error_identity_counterexample : ¬ claimC7 := by
  intro h
  have hres := h genC7 "describe the issue" agentB "Error code: 403 model denied"
    ["fallback one failed", "fallback two failed"]
    (by decide) (by decide) (by decide) (by decide) ⟨rfl, rfl, trivial⟩
  exact absurd hres (by decide)

/-- Helper for the amended C7: when every fallback model fails pointwise with
the messages `es`, the fallback loop returns the LAST of those messages and
consumes exactly one backend call per fallback. -/
theorem tryFallbacks_all_fail (gen : Gen) (prompt : String) (a : Agent) :
    ∀ (ms es : List String) (n : Nat) (e0 : String) (hes : es ≠ []),
    FailsWith gen prompt n ms es →
    tryFallbacks gen prompt a n e0 ms = (.error (es.getLast hes), a, n + ms.length) := by
  intro ms
  induction ms with
  | nil =>
    intro es n e0 hes hfail
    cases es with
    | nil => exact absurd rfl hes
    | cons e es' => exact hfail.elim
  | cons m ms' ih =>
    intro es n e0 hes hfail
    cases es with
    | nil => exact hfail.elim
    | cons e es' =>
      obtain ⟨hm, hrest⟩ := hfail
      cases ms' with
      | nil =>
        cases es' with
        | nil => simp [tryFallbacks, hm]
        | cons e2 es'' => exact hrest.elim
      | cons m2 ms'' =>
        have hes' : es' ≠ [] := by
          cases es' with
          | nil => exact hrest.elim
          | cons e2 es'' => exact List.cons_ne_nil e2 es''
        have hrec := ih es' (n + 1) e hes' hrest
        rw [show tryFallbacks gen prompt a n e0 (m :: m2 :: ms'')
              = tryFallbacks gen prompt a (n + 1) e (m2 :: ms'') from by
            rw [tryFallbacks, hm]]
        rw [hrec, List.getLast_cons hes']
        simp only [Prod.mk.injEq, List.length_cons]
        refine ⟨trivial, trivial, ?_⟩
        omega

/-- C7, amended: when the configured model fails with a forbidden
(non-transient) error, the fallback list is non-empty, and every fallback also
fails, `call_llm` surfaces the error of the LAST fallback model — not the
original forbidden error — after exactly one call per fallback. -/
theorem call_llm_fallback_exhausted (gen : Gen) (prompt : String) (a : Agent)
    (e : String) (es : List String)
    (h0 : gen a.model_name prompt 0 = .error e)
    (ht : is_transient_error e = false)
    (hf : is_model_forbidden_error e = true)
    (hne : a.fallback_models ≠ [])
    (hes : es ≠ [])
    (hfail : FailsWith gen prompt 1 a.fallback_models es) :
    call_llm gen prompt a 0
      = (.error (es.getLast hes), a, 1 + a.fallback_models.length) := by
  have hloop := tryFallbacks_all_fail gen prompt a a.fallback_models es 1 e hes hfail
  simp [call_llm, h0, ht, handleFailure, hf, hne, hloop]

/-- Witness for `call_llm_fallback_exhausted` on the both-fallbacks-fail
stub. -/
theorem call_llm_fallback_exhausted_witness :
    call_llm genC7 "describe the issue" agentB 0
      = (.error "fallback two failed", agentB, 3) :=
  call_llm_fallback_exhausted genC7 "describe the issue" agentB
    "Error code: 403 model denied" ["fallback one failed", "fallback two failed"]
    (by decide) (by decide) (by decide) (by decide) (by decide) ⟨rfl, rfl, trivial⟩

/-! ### Memory store (`src/memory/memory_store.py`)

The three SQLite tables are modelled as in-memory lists in rowid
(autoincrement) order.  `json.dumps`/`json.loads` on a JSON-serializable
metadata dict compose to the identity, so the `metadata` TEXT column is
modelled as holding the dict itself; `datetime.isoformat` is injective and
`datetime.fromisoformat` inverts it, so timestamps are modelled by their
ISO-format TEXT, which SQLite also uses for `ORDER BY timestamp`
comparisons (byte order — for these ASCII strings, codepoint-lexicographic
order). -/

/-- A JSON-serializable metadata value (flat; nesting is irrelevant to every
claim here, which only needs that dumps/loads round-trips the dict). -/
inductive JsonPrim where
  | str (s : String)
  | num (q : ℚ)
  | boolean (b : Bool)
  | null
deriving DecidableEq, Repr

/-- A JSON-serializable metadata dict. -/
abbrev Metadata := List (String × JsonPrim)

/-- `MemoryEntry` (`src/models/state.py`). -/
structure MemoryEntry where
  session_id : String
  agent_role : AgentRole
  message_type : MessageType
  content : String
  metadata : Metadata
  timestamp : String
  importance_score : ℚ
deriving DecidableEq, Repr

/-- A row of the `memory_entries` table (the `id` column is the list
position). -/
structure MemRow where
  session_id : String
  agent_role : String
  message_type : String
  content : String
  metadata : Metadata
  timestamp : String
  importance_score : ℚ
deriving DecidableEq, Repr

/-- A row of the `agent_states` table (the `id` column is the list
position; note the schema has NO unique constraint on
`(session_id, agent_role)`). -/
structure StateRow where
  session_id : String
  agent_role : String
  state_data : String
  timestamp : String
deriving DecidableEq, Repr

/-- A row of the `sessions` table (keyed by its `session_id` PRIMARY KEY). -/
structure SessionRow where
  created_at : String
  last_updated : String
  total_messages : Nat
deriving DecidableEq, Repr

/-- The database state. -/
structure MemoryStore where
  memory_entries : List MemRow
  agent_states : List StateRow
  sessions : List (String × SessionRow)
deriving DecidableEq, Repr

/-- A freshly initialized database (`_init_database`). -/
def emptyStore : MemoryStore := ⟨[], [], []⟩

/-- The INSERT of `add_memory_entry`: each `MemoryEntry` field serialized into
its column (`.value` for the enums, dumps/isoformat as identities). -/
def encodeEntry (e : MemoryEntry) : MemRow :=
  ⟨e.session_id, e.agent_role.value, e.message_type.value, e.content,
   e.metadata, e.timestamp, e.importance_score⟩

/-- Row reconstruction in `get_memory_entries`/`search_memories`:
`AgentRole(row[1])`, the `MessageType` coerced from its value, loads/
fromisoformat as identities. -/
def decodeRow (r : MemRow) : Option MemoryEntry :=
  match AgentRole.ofValue r.agent_role, MessageType.ofValue r.message_type with
  | some ar, some mt =>
    some ⟨r.session_id, ar, mt, r.content, r.metadata, r.timestamp, r.importance_score⟩
  | _, _ => none

/-- Strict byte-order comparison of two strings (SQLite TEXT collation;
identical to codepoint order for the ASCII timestamps used here). -/
def charsLt : List Char → List Char → Bool
  | [], [] => false
  | [], _ :: _ => true
  | _ :: _, [] => false
  | a :: as, b :: bs =>
    if a.val.toNat < b.val.toNat then true
    else if b.val.toNat < a.val.toNat then false
    else charsLt as bs

/-- `a ≤ b` in SQLite TEXT order. -/
def tsLe (a b : String) : Bool := !(charsLt b.data a.data)

/-- `ORDER BY timestamp DESC` comparison on `memory_entries` rows. -/
def tsGe (x y : MemRow) : Prop := tsLe y.timestamp x.timestamp = true

instance : DecidableRel tsGe :=
  fun x y => inferInstanceAs (Decidable (tsLe y.timestamp x.timestamp = true))

/-- `ORDER BY timestamp DESC` comparison on `agent_states` rows. -/
def stateGe (x y : StateRow) : Prop := tsLe y.timestamp x.timestamp = true

instance : DecidableRel stateGe :=
  fun x y => inferInstanceAs (Decidable (tsLe y.timestamp x.timestamp = true))

/-- The optional `agent_role` filter of `get_memory_entries`
(`if agent_role: ... AND agent_role = ?`). -/
def roleMatches (role : Option AgentRole) (r : MemRow) : Bool :=
  match role with
  | none => true
  | some ar => r.agent_role == ar.value

/-- The WHERE clause of `get_memory_entries`:
`session_id = ? AND importance_score >= ?` plus the optional role filter. -/
def entryFilter (sid : String) (min_importance : ℚ) (role : Option AgentRole)
    (r : MemRow) : Bool :=
  (r.session_id == sid) && decide (min_importance ≤ r.importance_score)
    && roleMatches role r

/-- `MemoryStore.get_memory_entries`: filter, `ORDER BY timestamp DESC`,
`LIMIT limit`, then rebuild the entries. -/
def get_memory_entries (s : MemoryStore) (sid : String) (role : Option AgentRole)
    (limit : Nat) (min_importance : ℚ) : List MemoryEntry :=
  (((s.memory_entries.filter (entryFilter sid min_importance role)).insertionSort
      tsGe).take limit).filterMap decodeRow

/-- `SELECT ... FROM sessions WHERE session_id = ?` (PRIMARY KEY lookup). -/
def lookupSession : List (String × SessionRow) → String → Option SessionRow
  | [], _ => none
  | (k, v) :: rest, sid => if k == sid then some v else lookupSession rest sid

/-- `INSERT OR REPLACE` on the `sessions` table: `session_id` is the PRIMARY
KEY, so the conflicting row (if any) is genuinely replaced. -/
def replaceSession : List (String × SessionRow) → String → SessionRow →
    List (String × SessionRow)
  | [], sid, r => [(sid, r)]
  | (k, v) :: rest, sid, r =>
    if k = sid then (sid, r) :: rest else (k, v) :: replaceSession rest sid r

/-- `COUNT(*) FROM memory_entries WHERE session_id = ?`. -/
def rowCount (entries : List MemRow) (sid : String) : Nat :=
  (entries.filter (fun r => r.session_id == sid)).length

/-- `MemoryStore._update_session`, executed AFTER the insert in the same
transaction: `created_at` is COALESCEd from the existing row (first-write
wins), `last_updated` is `datetime.now()`, `total_messages` is recounted from
the `memory_entries` table. -/
def updateSession (ss : List (String × SessionRow)) (entries : List MemRow)
    (sid now : String) : List (String × SessionRow) :=
  replaceSession ss sid
    ⟨(match lookupSession ss sid with
      | some r => r.created_at
      | none => now), now, rowCount entries sid⟩

/-- `MemoryStore.add_memory_entry` (the success path): insert the row, then
upsert the session record, atomically (one transaction). `now` is
`datetime.now().isoformat()` at the time of the call. -/
def add_memory_entry (s : MemoryStore) (e : MemoryEntry) (now : String) :
    MemoryStore :=
  { s with
    memory_entries := s.memory_entries ++ [encodeEntry e]
    sessions := updateSession s.sessions (s.memory_entries ++ [encodeEntry e])
      e.session_id now }

/-- `MemoryStore.save_agent_state`: the source writes `INSERT OR REPLACE INTO
agent_states`, but the table's only uniqueness is the autoincrement `id`
(there is no UNIQUE constraint on `(session_id, agent_role)`), so REPLACE
never fires and every save appends a fresh row. -/
def save_agent_state (s : MemoryStore) (sid : String) (role : AgentRole)
    (blob now : String) : MemoryStore :=
  { s with agent_states := s.agent_states ++ [⟨sid, role.value, blob, now⟩] }

/-- `MemoryStore.get_agent_state`:
`WHERE session_id = ? AND agent_role = ? ORDER BY timestamp DESC LIMIT 1`. -/
def get_agent_state (s : MemoryStore) (sid : String) (role : AgentRole) :
    Option String :=
  (((s.agent_states.filter (fun r =>
      (r.session_id == sid) && (r.agent_role == role.value))).insertionSort
        stateGe).head?).map (·.state_data)

/-- The session-record part of `get_session_summary` (`created_at`,
`last_updated`, `total_messages`; the per-agent statistics and the
recent-messages view are not involved in any claim and are elided). -/
structure SessionSummary where
  created_at : Option String
  last_updated : Option String
  total_messages : Nat
deriving DecidableEq, Repr

/-- `MemoryStore.get_session_summary`, restricted to the session-row fields:
for a missing session row the source fills `None`/`None`/`0`. -/
def get_session_summary (s : MemoryStore) (sid : String) : SessionSummary :=
  match lookupSession s.sessions sid with
  | some r => ⟨some r.created_at, some r.last_updated, r.total_messages⟩
  | none => ⟨none, none, 0⟩

/-- Run a sequence of successful appends, each with its `datetime.now()`
value. -/
def applyAppends (s : MemoryStore) : List (MemoryEntry × String) → MemoryStore
  | [] => s
  | (e, now) :: rest => applyAppends (add_memory_entry s e now) rest

/-- Serialization inverts on every entry: decoding the inserted row restores
the written `MemoryEntry`, field for field. -/
theorem decode_encode (e : MemoryEntry) : decodeRow (encodeEntry e) = some e := by
  rcases e with ⟨sid, ar, mt, c, md, ts, imp⟩
  cases ar <;> cases mt <;> rfl

/-- A concrete entry for the round-trip witness. -/
def entryW : MemoryEntry :=
  ⟨"s1", .RECEPTIONIST, .USER_QUERY, "hello", [("channel", .str "web")],
   "2024-01-01T00:00:00", mkRat 1 2⟩

/-! ### Theorems: memory-store claims C8-C10 -/

/-- C8: after a successful append, querying the same session with
`min_importance = 0`, no agent-role filter and the default `LIMIT 50` returns
an entry equal in ALL fields (session, role, type, content, metadata,
timestamp, importance) to the one written.  Hypotheses: the entry's
importance score is ≥ 0 (its documented range is [0,1]) and fewer than 50
rows of that session already match the filter, so the LIMIT cannot drop the
new row. -/
theorem memory_roundtrip (s : MemoryStore) (e : MemoryEntry) (now : String)
    (himp : (0 : ℚ) ≤ e.importance_score)
    (hcount : (s.memory_entries.filter (entryFilter e.session_id 0 none)).length < 50) :
    e ∈ get_memory_entries (add_memory_entry s e now) e.session_id none 50 0 := by
  have hrow : entryFilter e.session_id 0 none (encodeEntry e) = true := by
    simp [entryFilter, encodeEntry, roleMatches, himp]
  have hfil : (add_memory_entry s e now).memory_entries.filter
        (entryFilter e.session_id 0 none)
      = s.memory_entries.filter (entryFilter e.session_id 0 none)
          ++ [encodeEntry e] := by
    show (s.memory_entries ++ [encodeEntry e]).filter _ = _
    rw [List.filter_append]
    simp [hrow]
  unfold get_memory_entries
  rw [hfil]
  rw [List.take_of_length_le]
  · exact List.mem_filterMap.mpr
      ⟨encodeEntry e, by rw [List.mem_insertionSort]; simp, decode_encode e⟩
  · rw [List.length_insertionSort]
    simp only [List.length_append, List.length_cons, List.length_nil]
    omega

/-- Witness for `memory_roundtrip`: write `entryW` into a fresh store and
query it back. -/
theorem memory_roundtrip_witness :
    entryW ∈ get_memory_entries
      (add_memory_entry emptyStore entryW "2024-01-01T00:00:05") "s1" none 50 0 :=
  memory_roundtrip emptyStore entryW "2024-01-01T00:00:05" (by decide) (by decide)

/-- Two consecutive snapshot saves for the same `(session, agent_role)`
pair. -/
def store9 : MemoryStore :=
  save_agent_state
    (save_agent_state emptyStore "s1" .RECEPTIONIST "snapshotA" "2024-01-01T00:00:00")
    "s1" .RECEPTIONIST "snapshotB" "2024-01-01T00:00:01"

/-- C9, failing input: after two saves for the SAME `(session, agentRole)`
pair the `agent_states` table retains BOTH rows — a log, not keep-latest-only
— because `INSERT OR REPLACE` has no UNIQUE constraint on the pair to
conflict with; only loading still returns the most recent blob, via
`ORDER BY timestamp DESC LIMIT 1`. -/
theorem snapshot_save_keeps_log :
    (store9.agent_states.filter (fun r =>
        (r.session_id == "s1") && (r.agent_role == AgentRole.RECEPTIONIST.value))).length = 2
    ∧ get_agent_state store9 "s1" .RECEPTIONIST = some "snapshotB" := by
  exact ⟨by decide, by decide⟩

/-- Peeling the last append off a run. -/
theorem applyAppends_concat (s : MemoryStore) (l : List (MemoryEntry × String))
    (x : MemoryEntry × String) :
    applyAppends s (l ++ [x]) = add_memory_entry (applyAppends s l) x.1 x.2 := by
  induction l generalizing s with
  | nil => obtain ⟨e, now⟩ := x; rfl
  | cons y rest ih =>
    obtain ⟨e, now⟩ := y
    simp only [List.cons_append, applyAppends]
    exact ih _

/-- `INSERT OR REPLACE` into `sessions` makes the new row visible under its
key. -/
theorem lookup_replace_eq (ss : List (String × SessionRow)) (sid : String)
    (r : SessionRow) :
    lookupSession (replaceSession ss sid r) sid = some r := by
  induction ss with
  | nil => simp [replaceSession, lookupSession]
  | cons p rest ih =>
    obtain ⟨k, v⟩ := p
    by_cases hk : k = sid
    · subst hk
      simp [replaceSession, lookupSession]
    · simp [replaceSession, hk, lookupSession, ih]

/-- `INSERT OR REPLACE` into `sessions` leaves other keys untouched. -/
theorem lookup_replace_ne (ss : List (String × SessionRow)) (sid sid' : String)
    (r : SessionRow) (h : sid' ≠ sid) :
    lookupSession (replaceSession ss sid r) sid' = lookupSession ss sid' := by
  induction ss with
  | nil => simp [replaceSession, lookupSession, Ne.symm h]
  | cons p rest ih =>
    obtain ⟨k, v⟩ := p
    by_cases hk : k = sid
    · subst hk
      simp [replaceSession, lookupSession, Ne.symm h]
    · simp [replaceSession, hk, lookupSession, ih]

/-- Session accounting invariant, by induction over the run: the row count for
`sid` equals the number of appends for `sid`, and the session row (absent
before the first append for `sid`) records the time of the first append as
`created_at`, the time of the last append as `last_updated`, and the append count
as `total_messages`. -/
theorem applyAppends_session (appends : List (MemoryEntry × String)) (sid : String) :
    rowCount (applyAppends emptyStore appends).memory_entries sid
      = (appends.filter (fun p => p.1.session_id == sid)).length ∧
    ((appends.filter (fun p => p.1.session_id == sid)) = [] →
       lookupSession (applyAppends emptyStore appends).sessions sid = none) ∧
    (∀ pfirst plast,
       (appends.filter (fun p => p.1.session_id == sid)).head? = some pfirst →
       (appends.filter (fun p => p.1.session_id == sid)).getLast? = some plast →
       lookupSession (applyAppends emptyStore appends).sessions sid
         = some ⟨pfirst.2, plast.2,
             (appends.filter (fun p => p.1.session_id == sid)).length⟩) := by
  induction appends using List.reverseRecOn with
  | nil =>
    refine ⟨rfl, fun _ => rfl, fun pfirst plast h1 _ => ?_⟩
    exact Option.noConfusion h1
  | append_singleton l x ih =>
    obtain ⟨hcnt, hnil, hsome⟩ := ih
    obtain ⟨e, now⟩ := x
    rw [applyAppends_concat]
    rw [List.filter_append]
    by_cases he : e.session_id = sid
    · -- the appended entry belongs to `sid`
      have hx : (fun p => p.1.session_id == sid) ((e, now)) = true := by simp [he]
      rw [show List.filter (fun p => p.1.session_id == sid) [(e, now)] = [(e, now)] from by
        simp [hx]]
      have hments : (add_memory_entry (applyAppends emptyStore l) e now).memory_entries
          = (applyAppends emptyStore l).memory_entries ++ [encodeEntry e] := rfl
      have hcnt2 : rowCount ((applyAppends emptyStore l).memory_entries
            ++ [encodeEntry e]) sid
          = (l.filter (fun p => p.1.session_id == sid)).length + 1 := by
        unfold rowCount
        rw [List.filter_append]
        rw [show List.filter (fun r => r.session_id == sid) [encodeEntry e]
              = [encodeEntry e] from by simp [encodeEntry, he]]
        rw [List.length_append]
        unfold rowCount at hcnt
        rw [hcnt]
        rfl
      have hsess : (add_memory_entry (applyAppends emptyStore l) e now).sessions
          = replaceSession (applyAppends emptyStore l).sessions e.session_id
              ⟨(match lookupSession (applyAppends emptyStore l).sessions e.session_id with
                 | some r => r.created_at
                 | none => now), now,
               rowCount ((applyAppends emptyStore l).memory_entries
                 ++ [encodeEntry e]) e.session_id⟩ := rfl
      refine ⟨?_, ?_, ?_⟩
      · rw [hments, hcnt2]
        simp
      · intro hcontra
        exact absurd hcontra (by simp)
      · intro pfirst plast h1 h2
        have hlast : plast = (e, now) := by
          rw [List.getLast?_concat] at h2
          exact (Option.some_inj.mp h2).symm
        rw [hsess, he]
        rw [lookup_replace_eq]
        cases hfl : l.filter (fun p => p.1.session_id == sid) with
        | nil =>
          have hlk := hnil hfl
          have hfirst : pfirst = (e, now) := by
            rw [hfl] at h1
            simp at h1
            exact h1.symm
          rw [hlk, hcnt2, hfl, hfirst, hlast]
          simp
        | cons q rest =>
          have hqlast : (q :: rest).getLast? = some ((q :: rest).getLast (by simp)) :=
            List.getLast?_eq_getLast _ (by simp)
          have hlk := hsome q ((q :: rest).getLast (by simp)) (by rw [hfl]; rfl) (by rw [hfl, hqlast])
          have hfirst : pfirst = q := by
            rw [hfl] at h1
            simp at h1
            exact h1.symm
          rw [hlk, hcnt2, hfl, hfirst, hlast]
          simp [hfl]
    · -- the appended entry belongs to a different session
      have hx : (fun p => p.1.session_id == sid) ((e, now)) = false := by simp [he]
      rw [show List.filter (fun p => p.1.session_id == sid) [(e, now)] = [] from by
        simp [he]]
      have hments : (add_memory_entry (applyAppends emptyStore l) e now).memory_entries
          = (applyAppends emptyStore l).memory_entries ++ [encodeEntry e] := rfl
      have hcnt2 : rowCount ((applyAppends emptyStore l).memory_entries
            ++ [encodeEntry e]) sid
          = (l.filter (fun p => p.1.session_id == sid)).length := by
        unfold rowCount
        rw [List.filter_append]
        rw [show List.filter (fun r => r.session_id == sid) [encodeEntry e] = [] from by
          simp [encodeEntry, he]]
        rw [List.length_append]
        unfold rowCount at hcnt
        rw [hcnt]
        rfl
      have hlkpres : lookupSession
            (add_memory_entry (applyAppends emptyStore l) e now).sessions sid
          = lookupSession (applyAppends emptyStore l).sessions sid :=
        lookup_replace_ne _ _ _ _ (by exact fun hc => he hc.symm)
      refine ⟨?_, ?_, ?_⟩
      · rw [hments, hcnt2]
        simp
      · intro hfl
        rw [List.append_nil] at hfl
        rw [hlkpres]
        exact hnil hfl
      · intro pfirst plast h1 h2
        rw [List.append_nil] at h1 h2 ⊢
        rw [hlkpres]
        exact hsome pfirst plast h1 h2

/-- C10: for every run of successful appends from a fresh store and every
session id, the total_messages of the summary equals the number of appends made
for that session, `created_at` is the time of the FIRST such append
(first-write wins) and `last_updated` the time of the LAST one (last-write
wins); a session never appended to has no session row (`total_messages`
reported 0). -/
theorem session_accounting (appends : List (MemoryEntry × String)) (sid : String) :
    (get_session_summary (applyAppends emptyStore appends) sid).total_messages
      = (appends.filter (fun p => p.1.session_id == sid)).length ∧
    (get_session_summary (applyAppends emptyStore appends) sid).created_at
      = ((appends.filter (fun p => p.1.session_id == sid)).head?).map (fun p => p.2) ∧
    (get_session_summary (applyAppends emptyStore appends) sid).last_updated
      = ((appends.filter (fun p => p.1.session_id == sid)).getLast?).map (fun p => p.2) := by
  obtain ⟨hcnt, hnil, hsome⟩ := applyAppends_session appends sid
  cases hfl : appends.filter (fun p => p.1.session_id == sid) with
  | nil =>
    have hlk := hnil hfl
    unfold get_session_summary
    rw [hlk]
    simp
  | cons q rest =>
    have hqlast : (q :: rest).getLast? = some ((q :: rest).getLast (by simp)) :=
      List.getLast?_eq_getLast _ (by simp)
    have hlk := hsome q ((q :: rest).getLast (by simp)) (by rw [hfl]; rfl) (by rw [hfl, hqlast])
    unfold get_session_summary
    rw [hlk]
    rw [hfl] at hcnt ⊢
    simp [hqlast]

end Week
